import Mathlib

/-!
Verification of the generic JSON-RPC call pipeline of the genyleap
bitcoin-rpc client (src/source/bitcoinclient.cpp and bitcoinclient.hpp):
parameter marshaling (buildParams and the per-method conditional appends),
request-envelope construction (buildRpcRequest), response parsing and
classification (parseRpcResponse), the call facade (sendRequest), and the
named operations the checked properties refer to (getBlockCount, getBlock,
getChainTxStats, getBalance, importAddress, sendToAddress).

The jsoncpp document tree (Json::Value) is embedded as the inductive
`Json`.  The text layer (Json::parseFromStream and Json::writeString,
an external library) is abstracted at the document-tree level: a response
string is represented by its parse outcome (`none` for a parse failure,
`some j` for a document whose root is `j`; with the default
Json::CharReaderBuilder settings any root kind is accepted), and a request
is represented by its envelope tree.  The HTTP transport
(Network::sendPostRequest, an external collaborator) is represented by its
outcome, `TransportResult`.  A C++ exception escaping a function (jsoncpp
throws Json::LogicError from Json::Value::operator[] on a non-object,
non-null value) is modelled by `Except.error`; a normal return by
`Except.ok`.  Logger calls are pure observability and have no effect on
any returned value, so they are not modelled.
-/

set_option linter.unusedVariables false

namespace BitcoinRpc

/-- jsoncpp Json::Value: a tagged union over null, boolean, integer,
real (C++ double, embedded as a rational), string, array and object
(an ordered association list of members). -/
inductive Json where
  | null : Json
  | bool : Bool → Json
  | int : Int → Json
  | real : Rat → Json
  | str : String → Json
  | arr : List Json → Json
  | obj : List (String × Json) → Json

/-- Json::Value::isNull(). -/
def Json.isNull : Json → Bool
  | .null => true
  | _ => false

/-- Json::Value::append(v): on a null value, turns it into a one-element
array; on an array, appends at the end.  Every append in the repository is
performed on a default-constructed (null) value or on an array built from
one, so the remaining constructors are unreachable there (jsoncpp would
assert); they are mapped to the identity. -/
def Json.append : Json → Json → Json
  | .null, v => .arr [v]
  | .arr xs, v => .arr (xs ++ [v])
  | j, _ => j

/-- Replace the binding of key `k`, or add it at the end (std::map
insertion abstracted to the association list). -/
def setKV : List (String × Json) → String → Json → List (String × Json)
  | [], k, v => [(k, v)]
  | (k', v') :: kvs, k, v =>
      if k' = k then (k, v) :: kvs else (k', v') :: setKV kvs k v

/-- Json::Value::operator[](key) used as an lvalue for assignment
(buildRpcRequest): on null, creates an object with the one member; on an
object, inserts or replaces the member.  Unreachable on other kinds in the
embedded code. -/
def Json.setMember : Json → String → Json → Json
  | .null, k, v => .obj [(k, v)]
  | .obj kvs, k, v => .obj (setKV kvs k v)
  | j, _, _ => j

/-- Json::Value::operator[](key) used for reading (parseRpcResponse):
on a null value the member is null; on an object it is the stored member
(null when absent; the mutating insertion of a null member that jsoncpp
performs is unobservable in the embedded reads); on every other kind
jsoncpp's resolveReference assertion fails and Json::LogicError is
thrown, modelled as `Except.error`. -/
def Json.getMember : Json → String → Except String Json
  | .null, _ => .ok .null
  | .obj kvs, k => .ok ((List.lookup k kvs).getD .null)
  | _, _ => .error "in Json::Value::resolveReference(): requires objectValue"

/-- Json::Value::size(): number of elements of an array or members of an
object, 0 otherwise. -/
def Json.size : Json → Nat
  | .arr xs => xs.length
  | .obj kvs => kvs.length
  | _ => 0

/-- BitcoinClient::buildParams (bitcoinclient.hpp, lines 61-66): the
variadic fold `(params.append(args), ...)` starting from a
default-constructed (null) Json::Value, with the argument pack given as a
list.  With no arguments it returns the null value, not an empty array. -/
def buildParams (args : List Json) : Json :=
  args.foldl Json.append Json.null

/-- BitcoinClient::buildRpcRequest (bitcoinclient.cpp, lines 6-15): the
request envelope with the fixed protocol version "1.0", the constant
correlation token "Genyleap-Bitcoin-RPC", the method name and the params
value.  Serialization by Json::writeString is abstracted to the tree. -/
def buildRpcRequest (method : String) (params : Json) : Json :=
  ((((Json.null).setMember "jsonrpc" (Json.str "1.0")).setMember
      "id" (Json.str "Genyleap-Bitcoin-RPC")).setMember
      "method" (Json.str method)).setMember "params" params

/-- BitcoinClient::parseRpcResponse (bitcoinclient.cpp, lines 17-34).
Input is the parse outcome of the response text: `none` when
Json::parseFromStream fails (the function logs and returns a
default-constructed, i.e. null, Json::Value), `some jsonResponse`
otherwise.  If jsonResponse["error"] is non-null the function logs the
error and returns the null value; otherwise it returns
jsonResponse["result"].  A Json::LogicError thrown by a member access on
a non-object, non-null root escapes the function (`Except.error`). -/
def parseRpcResponse (parsed : Option Json) : Except String Json :=
  match parsed with
  | none => Except.ok Json.null
  | some jsonResponse =>
    match jsonResponse.getMember "error" with
    | Except.error msg => Except.error msg
    | Except.ok errField =>
      if !errField.isNull then Except.ok Json.null
      else jsonResponse.getMember "result"

/-- Outcome of the external transport call Network::sendPostRequest
(bitcoinclient.cpp, line 43): `failure` when it returns false, and
`success response` when it returns true with the received response text,
the text abstracted to its parse outcome. -/
inductive TransportResult where
  | failure : TransportResult
  | success : Option Json → TransportResult

/-- BitcoinClient::sendRequest (bitcoinclient.cpp, lines 36-50): builds
and logs the request, posts it; on transport failure logs and returns a
default-constructed (null) Json::Value, otherwise parses the response.
The hpp declaration (line 83) gives `params` the default Json::Value()
(the null value). -/
def sendRequest (method : String) (params : Json) (transport : TransportResult) :
    Except String Json :=
  match transport with
  | .failure => Except.ok Json.null
  | .success response => parseRpcResponse response

/-- sendRequest instrumented with a flag recording whether the response
decoder parseRpcResponse was invoked on this call; its first component is
exactly sendRequest (lemma sendRequestTraced_fst). -/
def sendRequestTraced (method : String) (params : Json) (transport : TransportResult) :
    Except String Json × Bool :=
  match transport with
  | .failure => (Except.ok Json.null, false)
  | .success response => (parseRpcResponse response, true)

theorem sendRequestTraced_fst (m : String) (p : Json) (t : TransportResult) :
    (sendRequestTraced m p t).1 = sendRequest m p t := by
  cases t <;> rfl

/-- BitcoinClient::getBlockCount (bitcoinclient.cpp, lines 64-66):
`sendRequest("getblockcount")`, so `params` is the declared default
Json::Value(), the null value. -/
def getBlockCount (t : TransportResult) : Except String Json :=
  sendRequest "getblockcount" Json.null t

/-- Parameter list of BitcoinClient::getBlock (bitcoinclient.cpp,
line 57): `buildParams(blockHash, verbose ? 2 : 1)`. -/
def getBlockParams (blockHash : String) (verbose : Bool) : Json :=
  buildParams [Json.str blockHash, Json.int (if verbose then 2 else 1)]

/-- BitcoinClient::getBlock (bitcoinclient.cpp, lines 56-58). -/
def getBlock (blockHash : String) (verbose : Bool) (t : TransportResult) :
    Except String Json :=
  sendRequest "getblock" (getBlockParams blockHash verbose) t

/-- Parameter list of BitcoinClient::getChainTxStats (bitcoinclient.cpp,
lines 90-94): `buildParams(nBlocks)` always, then blockHash appended only
when non-empty. -/
def getChainTxStatsParams (nBlocks : Int) (blockHash : String) : Json :=
  let params := buildParams [Json.int nBlocks]
  if blockHash = "" then params else params.append (Json.str blockHash)

/-- BitcoinClient::getChainTxStats (bitcoinclient.cpp, lines 90-94);
declared defaults (hpp line 155): nBlocks = 0, blockHash = "". -/
def getChainTxStats (nBlocks : Int) (blockHash : String) (t : TransportResult) :
    Except String Json :=
  sendRequest "getchaintxstats" (getChainTxStatsParams nBlocks blockHash) t

/-- Parameter list of BitcoinClient::getBalance (bitcoinclient.cpp,
lines 462-464): `buildParams(dummy, minconf, includeWatchonly)`,
unconditionally. -/
def getBalanceParams (dummy : String) (minconf : Int) (includeWatchonly : Bool) : Json :=
  buildParams [Json.str dummy, Json.int minconf, Json.bool includeWatchonly]

/-- BitcoinClient::getBalance (bitcoinclient.cpp, lines 462-464);
declared defaults (hpp line 747): dummy = "*", minconf = 0,
includeWatchonly = false. -/
def getBalance (dummy : String) (minconf : Int) (includeWatchonly : Bool)
    (t : TransportResult) : Except String Json :=
  sendRequest "getbalance" (getBalanceParams dummy minconf includeWatchonly) t

/-- Number of required (default-free) arguments in the declaration of
BitcoinClient::getBalance (bitcoinclient.hpp, line 747): all three
parameters carry declared defaults, so none is required. -/
def getBalanceRequiredArgCount : Nat := 0

/-- Parameter list of BitcoinClient::importAddress (bitcoinclient.cpp,
lines 498-503): `buildParams(address)`, then label appended only when
non-empty, then rescan appended unconditionally.  Declared defaults
(hpp line 812): label = "", rescan = true. -/
def importAddressParams (address label : String) (rescan : Bool) : Json :=
  let params := buildParams [Json.str address]
  let params := if label = "" then params else params.append (Json.str label)
  params.append (Json.bool rescan)

/-- BitcoinClient::importAddress (bitcoinclient.cpp, lines 498-503). -/
def importAddress (address label : String) (rescan : Bool) (t : TransportResult) :
    Except String Json :=
  sendRequest "importaddress" (importAddressParams address label rescan) t

/-- Parameter list of BitcoinClient::sendToAddress (bitcoinclient.cpp,
lines 637-643): `buildParams(address, amount)`, then comment and commentTo
each appended only when non-empty, then subtractFeeFromAmount appended
unconditionally.  Declared defaults (hpp line 1014): comment = "",
commentTo = "", subtractFeeFromAmount = false. -/
def sendToAddressParams (address : String) (amount : Rat)
    (comment commentTo : String) (subtractFeeFromAmount : Bool) : Json :=
  let params := buildParams [Json.str address, Json.real amount]
  let params := if comment = "" then params else params.append (Json.str comment)
  let params := if commentTo = "" then params else params.append (Json.str commentTo)
  params.append (Json.bool subtractFeeFromAmount)

/-- BitcoinClient::sendToAddress (bitcoinclient.cpp, lines 637-643). -/
def sendToAddress (address : String) (amount : Rat)
    (comment commentTo : String) (subtractFeeFromAmount : Bool)
    (t : TransportResult) : Except String Json :=
  sendRequest "sendtoaddress"
    (sendToAddressParams address amount comment commentTo subtractFeeFromAmount) t

/-- Claim C1, counterexample.  The claim says every failure kind reaches
the caller of sendRequest as a classified failure distinct from a success
outcome and is never converted to a null success value.  In the code, a
transport failure, an unparseable response, and a response with a non-null
error field all make sendRequest return the null Json value by an ordinary
return — literally the same outcome as a successful exchange whose result
is null (last conjunct), so no failure is distinguishable from a null
success. -/
theorem sendRequest_failures_indistinguishable_from_null_success :
    sendRequest "uptime" Json.null TransportResult.failure = Except.ok Json.null ∧
    sendRequest "uptime" Json.null (TransportResult.success none) = Except.ok Json.null ∧
    sendRequest "uptime" Json.null (TransportResult.success (some (Json.obj
      [("result", Json.null),
       ("error", Json.obj [("code", Json.int (-1)), ("message", Json.str "oops")])])))
      = Except.ok Json.null ∧
    sendRequest "uptime" Json.null (TransportResult.success (some (Json.obj
      [("result", Json.null), ("error", Json.null)]))) = Except.ok Json.null :=
  ⟨rfl, rfl, rfl, rfl⟩

/-- Claim C1, amended.  All three failure kinds (transport failure,
unparseable response, non-null remote error field) are converted by
sendRequest into the null Json value, returned as an ordinary success-shaped
result; the failure information is only logged, and no classified failure
propagates to the caller. -/
theorem sendRequest_all_failures_return_nullValue (m : String) (p : Json)
    (kvs : List (String × Json)) (e : Json)
    (hlook : (Json.obj kvs).getMember "error" = Except.ok e)
    (hne : e.isNull = false) :
    sendRequest m p TransportResult.failure = Except.ok Json.null ∧
    sendRequest m p (TransportResult.success none) = Except.ok Json.null ∧
    sendRequest m p (TransportResult.success (some (Json.obj kvs))) = Except.ok Json.null := by
  refine ⟨rfl, rfl, ?_⟩
  simp [sendRequest, parseRpcResponse, hlook, hne]

/-- Witness for sendRequest_all_failures_return_nullValue at the method
"uptime" with null params and the envelope whose error member is the
boolean true. -/
theorem sendRequest_all_failures_return_nullValue_w :
    (Json.obj [("error", Json.bool true)]).getMember "error" = Except.ok (Json.bool true) ∧
    (Json.bool true).isNull = false ∧
    sendRequest "uptime" Json.null
      (TransportResult.success (some (Json.obj [("error", Json.bool true)])))
      = Except.ok Json.null :=
  ⟨rfl, rfl,
    (sendRequest_all_failures_return_nullValue "uptime" Json.null
      [("error", Json.bool true)] (Json.bool true) rfl rfl).2.2⟩

/-- Claim C2, behavior of the code at the failing input.  With the label
at its declared default "" and the later rescan argument non-default
(false instead of true), importAddress marshals ["myaddr", false] — the
default label is skipped although a later non-default argument follows, so
rescan occupies the label's position (a positional gap).  Likewise
sendToAddress with comment at its default "" and a non-default commentTo
marshals ["addr1", 5, "to-note", false], commentTo occupying the comment
position.  The claim (and the positional protocol) requires
["myaddr", "", false] and ["addr1", 5, "", "to-note", false]. -/
theorem importAddress_positional_gap :
    importAddressParams "myaddr" "" false
      = Json.arr [Json.str "myaddr", Json.bool false] ∧
    sendToAddressParams "addr1" 5 "" "to-note" false
      = Json.arr [Json.str "addr1", Json.real 5, Json.str "to-note", Json.bool false] :=
  ⟨rfl, rfl⟩

/-- Claim C3, counterexample.  The claim says a response with a non-null
error field yields a Remote Error carrying exactly that code and message.
In the code, parseRpcResponse on the envelope with error code -5 and
message "Block not found" returns the null Json value — the very outcome
of a successful null-result envelope (second conjunct) — so neither the
code nor the message is carried to the caller. -/
theorem remoteError_code_message_not_surfaced :
    parseRpcResponse (some (Json.obj
      [("result", Json.int 7),
       ("error", Json.obj [("code", Json.int (-5)), ("message", Json.str "Block not found")])]))
      = Except.ok Json.null ∧
    parseRpcResponse (some (Json.obj
      [("result", Json.int 7),
       ("error", Json.obj [("code", Json.int (-5)), ("message", Json.str "Block not found")])]))
      = parseRpcResponse (some (Json.obj [("result", Json.null), ("error", Json.null)])) :=
  ⟨rfl, rfl⟩

/-- Claim C3, amended.  Whenever the response envelope's error member is
non-null, parseRpcResponse returns the null Json value regardless of what
the result member contains; the remote code and message are only logged,
never propagated. -/
theorem parseRpcResponse_remoteError_returns_nullValue (resp e : Json)
    (hlook : resp.getMember "error" = Except.ok e)
    (hne : e.isNull = false) :
    parseRpcResponse (some resp) = Except.ok Json.null := by
  simp [parseRpcResponse, hlook, hne]

/-- Witness for parseRpcResponse_remoteError_returns_nullValue at the
envelope with result 7 and error code -5. -/
theorem parseRpcResponse_remoteError_returns_nullValue_w :
    (Json.obj [("result", Json.int 7), ("error", Json.obj [("code", Json.int (-5))])]).getMember
        "error" = Except.ok (Json.obj [("code", Json.int (-5))]) ∧
    (Json.obj [("code", Json.int (-5))]).isNull = false ∧
    parseRpcResponse (some (Json.obj
      [("result", Json.int 7), ("error", Json.obj [("code", Json.int (-5))])]))
      = Except.ok Json.null :=
  ⟨rfl, rfl,
    parseRpcResponse_remoteError_returns_nullValue
      (Json.obj [("result", Json.int 7), ("error", Json.obj [("code", Json.int (-5))])])
      (Json.obj [("code", Json.int (-5))]) rfl rfl⟩

/-- Claim C4, counterexample.  The claim says an unparseable response
yields a Protocol Error and never a success outcome.  In the code, a parse
failure makes parseRpcResponse return the null Json value by an ordinary
return — equal (second conjunct) to the outcome of a perfectly well-formed
successful exchange whose result is null, i.e. a success outcome. -/
theorem parseFailure_yields_success_null :
    parseRpcResponse none = Except.ok Json.null ∧
    parseRpcResponse none
      = parseRpcResponse (some (Json.obj [("result", Json.null), ("error", Json.null)])) :=
  ⟨rfl, rfl⟩

/-- Claim C4, amended.  For every unparseable response (and for every
method and params at the facade level), the call returns the null Json
value as an ordinary success-shaped result after logging the parser
diagnostic; no Protocol Error is surfaced and no recovery of the payload
is attempted. -/
theorem parseRpcResponse_malformed_returns_nullValue :
    parseRpcResponse none = Except.ok Json.null ∧
    ∀ (m : String) (p : Json),
      sendRequest m p (TransportResult.success none) = Except.ok Json.null :=
  ⟨rfl, fun m p => rfl⟩

/-- Claim C5, counterexample.  The claim says that with every optional
trailing argument at its default the marshaled params length equals the
number of required arguments.  getBalance has zero required arguments
(all three parameters carry declared defaults), yet at its all-default
argument list ("*", 0, false) it marshals all three values, so the length
is 3, not 0. -/
theorem getBalance_allDefaults_marshals_three_values :
    (getBalanceParams "*" 0 false).size = 3 ∧
    getBalanceRequiredArgCount = 0 ∧
    (getBalanceParams "*" 0 false).size ≠ getBalanceRequiredArgCount :=
  ⟨rfl, rfl, by decide⟩

/-- Claim C5, amended.  Trailing defaults are dropped only where the code
guards the append with an explicit emptiness test: at all-default
arguments getChainTxStats drops its blockHash but still encodes
nBlocks = 0, marshaling [0], and getBalance unconditionally encodes all
three of its defaulted arguments, marshaling ["*", 0, false]; the
marshaled length therefore does not in general equal the number of
required arguments. -/
theorem allDefaults_marshaling_behavior :
    getChainTxStatsParams 0 "" = Json.arr [Json.int 0] ∧
    getBalanceParams "*" 0 false
      = Json.arr [Json.str "*", Json.int 0, Json.bool false] :=
  ⟨rfl, rfl⟩

/-- Claim C6, counterexample.  The claim says the no-argument
getBlockCount call produces params = [] and an envelope whose params
member is the empty array.  In the code the defaulted params argument is
the default-constructed Json::Value, the null value, and the envelope's
params member is that null value, which is not the empty array. -/
theorem getBlockCount_params_is_null_not_emptyArray :
    (buildRpcRequest "getblockcount" Json.null).getMember "params" = Except.ok Json.null ∧
    Json.null ≠ Json.arr [] :=
  ⟨rfl, fun h => Json.noConfusion h⟩

/-- Claim C6, amended.  The no-argument getBlockCount call uses the
declared default params, the null Json value, so its envelope is
protocol version "1.0", id "Genyleap-Bitcoin-RPC", method "getblockcount"
and params null (not the empty array); the response with result 812345
and null error yields the integer 812345 as the call outcome. -/
theorem getBlockCount_envelope_and_outcome :
    buildRpcRequest "getblockcount" Json.null
      = Json.obj [("jsonrpc", Json.str "1.0"), ("id", Json.str "Genyleap-Bitcoin-RPC"),
          ("method", Json.str "getblockcount"), ("params", Json.null)] ∧
    getBlockCount (TransportResult.success (some (Json.obj
      [("result", Json.int 812345), ("error", Json.null)])))
      = Except.ok (Json.int 812345) :=
  ⟨rfl, rfl⟩

/-- Claim C7, counterexample.  The claim says the Block-not-found response
(error code -5) makes getBlock yield a Remote Error with code -5.  In the
code that call returns the null Json value, the identical outcome to a
successful exchange whose result is null, so no Remote Error (and no code
-5) reaches the caller. -/
theorem getBlock_remoteError_same_as_null_success :
    getBlock "0000abcd" false (TransportResult.success (some (Json.obj
      [("result", Json.null),
       ("error", Json.obj [("code", Json.int (-5)), ("message", Json.str "Block not found")])])))
    = getBlock "0000abcd" false (TransportResult.success (some (Json.obj
      [("result", Json.null), ("error", Json.null)]))) :=
  rfl

/-- Claim C7, amended.  getBlock with an explicit hash and verbose = false
marshals params = [hash, 1] (the documented verbosity mapping); the
Block-not-found response with error code -5 makes the call return the
null Json value (the error is only logged), not a Remote Error carrying
the code. -/
theorem getBlock_params_and_nullValue_on_error :
    getBlockParams "0000abcd" false = Json.arr [Json.str "0000abcd", Json.int 1] ∧
    getBlock "0000abcd" false (TransportResult.success (some (Json.obj
      [("result", Json.null),
       ("error", Json.obj [("code", Json.int (-5)), ("message", Json.str "Block not found")])])))
      = Except.ok Json.null :=
  ⟨rfl, rfl⟩

/-- Claim C8, counterexample.  The claim says a transport failure makes
the call yield a Transport Error.  In the code, sendRequest on a transport
failure returns the null Json value — the identical outcome to a
successful exchange whose result is null — so no Transport Error distinct
from success is produced. -/
theorem transport_failure_same_as_null_success :
    sendRequest "getpeerinfo" Json.null TransportResult.failure
      = sendRequest "getpeerinfo" Json.null (TransportResult.success (some (Json.obj
          [("result", Json.null), ("error", Json.null)]))) :=
  rfl

/-- Claim C8, amended.  Whenever the transport invoker reports a failure,
sendRequest returns the null Json value (not a classified Transport
Error) and the response decoder parseRpcResponse is never invoked on that
call. -/
theorem transport_failure_returns_null_without_decoding (m : String) (p : Json) :
    sendRequestTraced m p TransportResult.failure = (Except.ok Json.null, false) :=
  rfl

/-- Claim C9, confirmed.  Round-trip law over the document trees (the
external jsoncpp text layer being lossless and deterministic on them):
for every Json value of any variant, encoding a call request embeds the
value unchanged in the envelope's params member, and decoding a response
envelope that carries that same value as result with a null error yields
the call outcome equal to the original value. -/
theorem roundTrip_value_result (method : String) (v : Json) :
    (buildRpcRequest method (buildParams [v])).getMember "params"
      = Except.ok (Json.arr [v]) ∧
    parseRpcResponse (some (Json.obj [("result", v), ("error", Json.null)]))
      = Except.ok v :=
  ⟨rfl, rfl⟩

/-- Claim C10, counterexample.  The claim says parseRpcResponse is total
over response strings, the member accesses being well-defined on every
possible parse result including non-object roots.  The response text
"[1]" parses (the default reader accepts any root) to the array [1], and
jsonResponse["error"] on an array value violates jsoncpp's
resolveReference precondition: Json::LogicError is thrown and no
Json::Value is returned. -/
theorem parseRpcResponse_throws_on_array_root :
    parseRpcResponse (some (Json.arr [Json.int 1]))
      = Except.error "in Json::Value::resolveReference(): requires objectValue" :=
  rfl

/-- Claim C10, amended.  parseRpcResponse returns a Json value without
failing for every parse failure and for every parsed document whose root
is null or an object; only non-object, non-null roots make the member
access throw. -/
theorem parseRpcResponse_total_on_wellformed_roots :
    (∃ v, parseRpcResponse none = Except.ok v) ∧
    (∃ v, parseRpcResponse (some Json.null) = Except.ok v) ∧
    ∀ kvs : List (String × Json), ∃ v, parseRpcResponse (some (Json.obj kvs)) = Except.ok v := by
  refine ⟨⟨Json.null, rfl⟩, ⟨Json.null, rfl⟩, fun kvs => ?_⟩
  cases h : ((List.lookup "error" kvs).getD Json.null).isNull
  · exact ⟨Json.null, by simp [parseRpcResponse, Json.getMember, h]⟩
  · exact ⟨(List.lookup "result" kvs).getD Json.null,
      by simp [parseRpcResponse, Json.getMember, h]⟩

end BitcoinRpc
